import Mathlib

/-!
Shallow embedding of the Consented Link Tracker server
(src/unnamed/part_000): an Express application over SQLite with two
tables, `links` and `visits`.  Request bodies are modelled as
JavaScript values, the database as explicit state, and each route
handler as a pure function from a database and a request to the new
database and the response.
-/

namespace ConsentedLinkTracker

/-- A JavaScript value as it appears in a JSON or form request body:
an absent field is `vundef`, JSON null is `vnull`; numbers are
modelled as rationals. -/
inductive Value where
  | vnull
  | vundef
  | vbool (b : Bool)
  | vnum (q : ℚ)
  | vstr (s : String)
deriving DecidableEq

/-- JavaScript truthiness of a `Value`: `undefined`, `null`, `false`,
`0` and the empty string are falsy, everything else is truthy. -/
def truthy : Value → Bool
  | .vnull => false
  | .vundef => false
  | .vbool b => b
  | .vnum q => q != 0
  | .vstr s => s != ""

/-- The value bound into a nullable REAL column by the expression
`typeof x === "number" ? x : null`. -/
def toNumOpt : Value → Option ℚ
  | .vnum q => some q
  | _ => none

/-- A row of the `links` table (lines 78-84). -/
structure Link where
  id : Nat
  slug : String
  targetUrl : String
  title : Option String
  createdAt : String
deriving DecidableEq

/-- A row of the `visits` table (lines 85-97): `consented` is the
stored INTEGER (`DEFAULT 0`), the three location columns are nullable
REALs. -/
structure Visit where
  id : Nat
  linkId : Nat
  createdAt : String
  ip : String
  userAgent : String
  referer : String
  consented : Nat
  latitude : Option ℚ
  longitude : Option ℚ
  accuracy : Option ℚ
deriving DecidableEq

/-- The SQLite database: the two tables plus the AUTOINCREMENT
counters for their INTEGER PRIMARY KEY columns. -/
structure DB where
  links : List Link
  visits : List Visit
  nextLinkId : Nat
  nextVisitId : Nat
deriving DecidableEq

/-- `SELECT * FROM links WHERE slug = ?` (the slug column is UNIQUE). -/
def getBySlug (db : DB) (slug : String) : Option Link :=
  db.links.find? fun l => l.slug == slug

/-- `SELECT * FROM visits WHERE id = ?` (id is the INTEGER PRIMARY KEY). -/
def readVisit (db : DB) (id : Nat) : Option Visit :=
  db.visits.find? fun v => v.id == id

/-- The whitespace characters SQLite's numeric parser skips around a
literal. -/
def isSqliteSpace (c : Char) : Bool :=
  c = ' ' || c = '\t' || c = '\n' || c = '\x0b' || c = '\x0c' || c = '\r'

/-- The numeric value of a run of ASCII digits. -/
def digitsToNat (ds : List Char) : Nat :=
  ds.foldl (fun acc c => 10 * acc + (c.toNat - '0'.toNat)) 0

/-- SQLite's conversion of a TEXT operand under NUMERIC affinity (its
`sqlite3AtoF` well-formedness test): optional surrounding whitespace,
an optional sign, digits with an optional `.` fractional part (at
least one digit in the significand), and an optional `e`/`E` exponent
with its own optional sign and at least one digit.  A string of any
other shape (`"abc"`, `"1e"`, `"0x10"`, internal spaces) keeps TEXT
type, which never compares equal to an INTEGER.  The result pair
`(n, k)` denotes the exact decimal value `n / 10 ^ k`; SQLite itself
rounds the value to an 8-byte IEEE double, a difference visible only
beyond about 15 significant digits — the same exact-value abstraction
this embedding uses for the REAL columns. -/
def sqliteTextToNum (s : String) : Option (Int × Nat) :=
  let l0 := s.data.dropWhile isSqliteSpace
  let sl :=
    match l0 with
    | '-' :: rest => (true, rest)
    | '+' :: rest => (false, rest)
    | _ => (false, l0)
  let ip := sl.2.span Char.isDigit
  let fr :=
    match ip.2 with
    | '.' :: rest => rest.span Char.isDigit
    | _ => (([] : List Char), ip.2)
  if ip.1.length + fr.1.length = 0 then none
  else
    let sig : Nat := digitsToNat (ip.1 ++ fr.1)
    let signed : Nat → Int := fun m => if sl.1 then -(m : Int) else (m : Int)
    match fr.2 with
    | 'e' :: r | 'E' :: r =>
        let es :=
          match r with
          | '-' :: rr => (true, rr)
          | '+' :: rr => (false, rr)
          | _ => (false, r)
        let ed := es.2.span Char.isDigit
        if ed.1.length = 0 then none
        else if ed.2.dropWhile isSqliteSpace ≠ [] then none
        else if es.1 then some (signed sig, fr.1.length + digitsToNat ed.1)
        else some (signed (sig * 10 ^ digitsToNat ed.1), fr.1.length)
    | _ =>
        if fr.2.dropWhile isSqliteSpace ≠ [] then none
        else some (signed sig, fr.1.length)

/-- Whether the bound `visitId` parameter of the UPDATE matches a
row's INTEGER `id` under SQLite comparison with INTEGER affinity:
a number compares numerically, a boolean is bound as 0/1, a text
parameter is converted by NUMERIC affinity when it is a well-formed
numeric literal (`"1"`, `"+1"`, `"1.0"`, `"1e0"`, `" 1 "` all match
id 1: the parsed value `n / 10 ^ k` equals the id exactly when
`n = id * 10 ^ k`) and otherwise stays TEXT and matches nothing, and
NULL or undefined matches nothing. -/
def idMatches (vid : Value) (rowId : Nat) : Bool :=
  match vid with
  | .vnum q => q == (rowId : ℚ)
  | .vbool b => (if b then 1 else 0) == rowId
  | .vstr s =>
      match sqliteTextToNum s with
      | some nk => nk.1 == (rowId : Int) * ((10 ^ nk.2 : Nat) : Int)
      | none => false
  | _ => false

/-- The body of `POST /api/visit` after the destructuring
`const (visitId, consented, latitude, longitude, accuracy) = req.body`:
each absent field is `vundef`. -/
structure VisitPayload where
  visitId : Value
  consented : Value
  latitude : Value
  longitude : Value
  accuracy : Value
deriving DecidableEq

/-- An HTTP status code together with the `ok` field of the JSON
answer of `POST /api/visit`. -/
structure ApiResponse where
  status : Nat
  ok : Bool
deriving DecidableEq

/-- The change of one matched row under the unconditional
`UPDATE visits SET consented = ?, latitude = ?, longitude = ?,
accuracy = ? WHERE id = ?` (lines 361-368): `consented` receives
`consented ? 1 : 0`, and each location column receives the payload
field when it is a number and NULL otherwise. -/
def updateVisitRow (p : VisitPayload) (v : Visit) : Visit :=
  { v with
    consented := if truthy p.consented then 1 else 0
    latitude := toNumOpt p.latitude
    longitude := toNumOpt p.longitude
    accuracy := toNumOpt p.accuracy }

/-- `POST /api/visit` (lines 357-374): a falsy `visitId` is rejected
with status 400 and `ok: false`; otherwise the UPDATE keyed by id
runs unconditionally over the table and the route answers 200 with
`ok: true`. -/
def handleApiVisit (db : DB) (p : VisitPayload) : DB × ApiResponse :=
  if truthy p.visitId = false then (db, ⟨400, false⟩)
  else
    ({ db with
        visits := db.visits.map fun v =>
          if idMatches p.visitId v.id then updateVisitRow p v else v },
     ⟨200, true⟩)

/-- The response of `GET /l/:slug`: 404, or the consent page
embedding the id of the freshly inserted pending visit. -/
inductive LandingResult where
  | notFound
  | page (visitId : Nat)
deriving DecidableEq

/-- `GET /l/:slug` (lines 267-281): look the link up by slug and
short-circuit with 404 when absent; otherwise
`INSERT INTO visits (link_id, created_at, ip, user_agent, referer)`
creates a preliminary row in which `consented` takes its column
default 0 and the three location columns default to NULL, and the
consent page embedding the new row's id is served. -/
def handleLanding (db : DB) (slug ip ua referer createdAt : String) :
    DB × LandingResult :=
  match getBySlug db slug with
  | none => (db, .notFound)
  | some link =>
      let v : Visit :=
        { id := db.nextVisitId, linkId := link.id, createdAt := createdAt,
          ip := ip, userAgent := ua, referer := referer,
          consented := 0, latitude := none, longitude := none,
          accuracy := none }
      ({ db with visits := db.visits ++ [v],
                 nextVisitId := db.nextVisitId + 1 },
       .page v.id)

/-- The response of `POST /create`: 400 on a bad URL, a redirect to
the detail page on success, or 500 when the INSERT fails (the UNIQUE
constraint on `slug`). -/
inductive CreateResult where
  | badRequest
  | redirect (slug : String)
  | serverError
deriving DecidableEq

/-- The test of the anchored case-insensitive regular expression
`/^https?:\/\//i` (line 198): it accepts exactly the strings whose
ASCII lowercasing begins with `http://` or `https://`. -/
def matchesUrlRegex (u : String) : Bool :=
  "http://".data.isPrefixOf (u.data.map Char.toLower) ||
  "https://".data.isPrefixOf (u.data.map Char.toLower)

/-- `POST /create` (lines 195-211): reject a falsy or non-matching
`target_url` with 400 before any INSERT; otherwise insert the link
under the freshly generated slug — when the UNIQUE constraint on
`slug` is violated the INSERT throws and the catch block answers 500
with no row stored — and redirect to the detail page. -/
def handleCreate (db : DB) (targetUrl : String) (title : Option String)
    (slug createdAt : String) : DB × CreateResult :=
  if targetUrl = "" ∨ matchesUrlRegex targetUrl = false then (db, .badRequest)
  else if db.links.any (fun l => l.slug == slug) then (db, .serverError)
  else
    let l : Link :=
      { id := db.nextLinkId, slug := slug, targetUrl := targetUrl,
        title := title, createdAt := createdAt }
    ({ db with links := db.links ++ [l], nextLinkId := db.nextLinkId + 1 },
     .redirect slug)

/-- `String.prototype.split(sep)` for a one-character separator, on
the character-list view of a string: `"a.b".split "." = [a, b]`,
`"..".split "." = ["", "", ""]`. -/
def splitChar (sep : Char) : List Char → List (List Char)
  | [] => [[]]
  | c :: cs =>
      if c = sep then [] :: splitChar sep cs
      else
        match splitChar sep cs with
        | [] => [[c]]
        | p :: ps => (c :: p) :: ps

/-- `Array.prototype.join(sep)` for a one-character separator. -/
def joinChar (sep : Char) : List (List Char) → List Char
  | [] => []
  | [p] => p
  | p :: ps => p ++ sep :: joinChar sep ps

/-- The test of `/^\d+\.\d+\.\d+\.\d+$/` on the parts of the split at
dots: the regular expression matches exactly when the split has four
parts, each nonempty and made of digits only. -/
def isDottedQuad (parts : List (List Char)) : Bool :=
  parts.length == 4 && parts.all fun p => !p.isEmpty && p.all Char.isDigit

/-- `maskIP` (lines 55-67) on the character-list view: the empty
(falsy) string maps to itself; a dotted-quad IPv4 address has its
last octet replaced by `"0"` and `" (masked)"` appended; otherwise a
string containing a colon keeps its first four `:`-segments and gets
the suffix `":**** (masked)"`; anything else is returned unchanged. -/
def maskIPChars (ip : List Char) : List Char :=
  if ip = [] then []
  else if isDottedQuad (splitChar '.' ip) then
    joinChar '.' ((splitChar '.' ip).take 3 ++ [['0']]) ++ " (masked)".data
  else if ip.contains ':' then
    joinChar ':' ((splitChar ':' ip).take 4) ++ ":**** (masked)".data
  else ip

/-- `maskIP` as a function on strings. -/
def maskIP (ip : String) : String :=
  ⟨maskIPChars ip.data⟩

/-- The alphabet handed to `customAlphabet` on line 33. -/
def nanoidAlphabet : List Char :=
  "0123456789abcdefghijklmnopqrstuvwxyz".data

/-- Modelled from the spec: the nanoid library's `customAlphabet`
(the library itself is a dependency, not part of the repository)
returns a generator producing strings of exactly `size` characters,
each drawn from `alphabet`; the random source is modelled as the
function `pick` giving the chosen alphabet index at each position. -/
def customAlphabet (alphabet : List Char) (size : Nat)
    (pick : Nat → Fin alphabet.length) : List Char :=
  (List.range size).map fun i => alphabet.get (pick i)

/-- The configured generator `nanoid = customAlphabet("0123456789abc…z", 7)`
(line 33). -/
def nanoidChars (pick : Nat → Fin nanoidAlphabet.length) : List Char :=
  customAlphabet nanoidAlphabet 7 pick

/-- The JavaScript test `typeof x === "number"`. -/
def isNumber : Value → Bool
  | .vnum _ => true
  | _ => false

/-- A database with no rows at all. -/
def dbEmpty : DB :=
  { links := [], visits := [], nextLinkId := 1, nextVisitId := 1 }

/-- A database holding one link and one pending visit (id 1) on it. -/
def dbOne : DB :=
  { links := [{ id := 1, slug := "abc1234", targetUrl := "https://example.com",
                title := none, createdAt := "t0" }],
    visits := [{ id := 1, linkId := 1, createdAt := "t1", ip := "203.0.113.42",
                 userAgent := "ua", referer := "", consented := 0,
                 latitude := none, longitude := none, accuracy := none }],
    nextLinkId := 2, nextVisitId := 2 }

/-- A consented resolution payload for visit 1 with numeric coordinates. -/
def pCon : VisitPayload :=
  { visitId := .vnum 1, consented := .vbool true,
    latitude := .vnum 15, longitude := .vnum 25, accuracy := .vnum 10 }

/-- A declined resolution payload for visit 1 (coordinates absent). -/
def pDec : VisitPayload :=
  { visitId := .vnum 1, consented := .vbool false,
    latitude := .vundef, longitude := .vundef, accuracy := .vundef }

/-- A consented resolution payload for visit 1 whose latitude is the
string `"abc"` rather than a number. -/
def pBadLat : VisitPayload :=
  { visitId := .vnum 1, consented := .vbool true,
    latitude := .vstr "abc", longitude := .vnum 2, accuracy := .vnum 3 }

/-- A declined resolution payload for visit 1 that nevertheless carries
a numeric latitude and accuracy but a string longitude. -/
def pPartial : VisitPayload :=
  { visitId := .vnum 1, consented := .vbool false,
    latitude := .vnum 7, longitude := .vstr "x", accuracy := .vnum 3 }

/-- The random source that always picks alphabet index 0. -/
def pickZero : Nat → Fin nanoidAlphabet.length :=
  fun _ => ⟨0, by decide⟩

/-- Mapping a function that fixes every member of a list leaves the
list unchanged. -/
theorem map_id_of_mem {α : Type} (f : α → α) :
    ∀ l : List α, (∀ x ∈ l, f x = x) → l.map f = l := by
  intro l
  induction l with
  | nil => intro _; rfl
  | cons x xs ih =>
      intro h
      simp only [List.map_cons]
      rw [h x (List.mem_cons_self x xs), ih fun y hy => h y (List.mem_cons_of_mem x hy)]

/-- A non-numeric JavaScript value is bound as NULL by
`typeof x === "number" ? x : null`. -/
theorem toNumOpt_eq_none_of_not_number (x : Value) (h : isNumber x = false) :
    toNumOpt x = none := by
  cases x <;> first | rfl | simp [isNumber] at h

/-- `find?` skips a prefix on which the test is everywhere false. -/
theorem find?_skips_front {α : Type} (p : α → Bool) :
    ∀ l₁ l₂ : List α, (∀ x ∈ l₁, p x = false) →
      List.find? p (l₁ ++ l₂) = List.find? p l₂ := by
  intro l₁
  induction l₁ with
  | nil => intro l₂ _; rfl
  | cons x xs ih =>
      intro l₂ h
      simp only [List.cons_append, List.find?]
      rw [h x (List.mem_cons_self x xs)]
      exact ih l₂ fun y hy => h y (List.mem_cons_of_mem x hy)

/-- Claim C5: a request to a tracking slug absent from the links table
answers not-found and leaves the database (in particular the visits
table) unchanged. -/
theorem landing_unknown_slug_404 (db : DB) (slug ip ua referer t : String)
    (h : getBySlug db slug = none) :
    handleLanding db slug ip ua referer t = (db, .notFound) := by
  simp [handleLanding, h]

theorem landing_unknown_slug_404_witness :
    getBySlug dbEmpty "zzz" = none ∧
    handleLanding dbEmpty "zzz" "ip" "ua" "r" "t0" = (dbEmpty, .notFound) :=
  ⟨by decide, landing_unknown_slug_404 dbEmpty "zzz" "ip" "ua" "r" "t0" (by decide)⟩

/-- Claim C4: a well-formed resolve call (truthy `visitId`) whose id
matches no stored visit answers ok and leaves the database unchanged:
no row is created and no row is mutated. -/
theorem resolve_unknown_id_noop (db : DB) (p : VisitPayload)
    (ht : truthy p.visitId = true)
    (hnone : ∀ v ∈ db.visits, idMatches p.visitId v.id = false) :
    handleApiVisit db p = (db, ⟨200, true⟩) := by
  simp only [handleApiVisit, ht]
  have : (db.visits.map fun v =>
      if idMatches p.visitId v.id then updateVisitRow p v else v) = db.visits := by
    apply map_id_of_mem
    intro v hv
    rw [hnone v hv]
    rfl
  simp [this]

theorem resolve_unknown_id_noop_witness :
    truthy (Value.vstr "2.50e2") = true ∧
    sqliteTextToNum "2.50e2" = some (25000, 2) ∧
    handleApiVisit dbOne
      { visitId := .vstr "2.50e2", consented := .vbool false,
        latitude := .vundef, longitude := .vundef, accuracy := .vundef } =
      (dbOne, ⟨200, true⟩) :=
  ⟨by decide, by decide,
   resolve_unknown_id_noop dbOne
     { visitId := .vstr "2.50e2", consented := .vbool false,
       latitude := .vundef, longitude := .vundef, accuracy := .vundef }
     (by decide) (by decide)⟩

/-- Claim C6: when a tracking slug resolves to a link, the freshly
inserted visit, read back by its id, has `consented = 0` and all three
location columns NULL. -/
theorem landing_opens_pending_visit (db : DB) (slug ip ua referer t : String)
    (link : Link) (hlink : getBySlug db slug = some link)
    (hfresh : ∀ v ∈ db.visits, v.id ≠ db.nextVisitId) :
    (handleLanding db slug ip ua referer t).2 = .page db.nextVisitId ∧
    ∃ v, readVisit (handleLanding db slug ip ua referer t).1 db.nextVisitId = some v ∧
      v.consented = 0 ∧ v.latitude = none ∧ v.longitude = none ∧ v.accuracy = none := by
  have hkey : readVisit (handleLanding db slug ip ua referer t).1 db.nextVisitId =
      some { id := db.nextVisitId, linkId := link.id, createdAt := t, ip := ip,
             userAgent := ua, referer := referer, consented := 0,
             latitude := none, longitude := none, accuracy := none } := by
    simp only [handleLanding, hlink, readVisit]
    rw [find?_skips_front _ db.visits]
    · simp [List.find?]
    · intro x hx
      have : x.id ≠ db.nextVisitId := hfresh x hx
      simp [this]
  exact ⟨by simp [handleLanding, hlink], _, hkey, rfl, rfl, rfl, rfl⟩

theorem landing_opens_pending_visit_witness :
    getBySlug dbOne "abc1234" =
      some { id := 1, slug := "abc1234", targetUrl := "https://example.com",
             title := none, createdAt := "t0" } ∧
    ∃ v, readVisit (handleLanding dbOne "abc1234" "ip" "ua" "r" "t2").1
        dbOne.nextVisitId = some v ∧
      v.consented = 0 ∧ v.latitude = none ∧ v.longitude = none ∧ v.accuracy = none :=
  ⟨by decide,
   (landing_opens_pending_visit dbOne "abc1234" "ip" "ua" "r" "t2"
     { id := 1, slug := "abc1234", targetUrl := "https://example.com",
       title := none, createdAt := "t0" }
     (by decide) (by decide)).2⟩

/-- Claim C10: `POST /api/visit` rejects every falsy `visitId`
(undefined, null, 0, the empty string) with status 400 and `ok: false`
without touching the database; for a truthy `visitId` matching a stored
visit the route answers 200 `ok: true` and stores `consented = 1` when
the payload's `consented` value is truthy and `0` otherwise, so a
non-boolean such as the string `"false"` counts as consent. -/
theorem api_visit_falsy_and_coercion :
    (truthy .vundef = false ∧ truthy .vnull = false ∧
     truthy (.vnum 0) = false ∧ truthy (.vstr "") = false) ∧
    (∀ (db : DB) (p : VisitPayload), truthy p.visitId = false →
       handleApiVisit db p = (db, ⟨400, false⟩)) ∧
    (∀ (db : DB) (p : VisitPayload) (v : Visit), truthy p.visitId = true →
       v ∈ db.visits → idMatches p.visitId v.id = true →
       (handleApiVisit db p).2 = ⟨200, true⟩ ∧
       updateVisitRow p v ∈ (handleApiVisit db p).1.visits ∧
       (updateVisitRow p v).consented =
         (if truthy p.consented = true then 1 else 0)) ∧
    truthy (.vstr "false") = true := by
  refine ⟨by refine ⟨rfl, rfl, by decide, by decide⟩, ?_, ?_, by decide⟩
  · intro db p hf
    simp [handleApiVisit, hf]
  · intro db p v ht hv hm
    refine ⟨by simp [handleApiVisit, ht], ?_, by simp [updateVisitRow]⟩
    simp only [handleApiVisit, ht]
    simp only [Bool.true_eq_false, if_false]
    exact List.mem_map.mpr ⟨v, hv, by rw [hm]; rfl⟩

theorem api_visit_falsy_and_coercion_witness :
    handleApiVisit dbOne
      { visitId := .vstr "", consented := .vbool true,
        latitude := .vundef, longitude := .vundef, accuracy := .vundef } =
      (dbOne, ⟨400, false⟩) ∧
    (handleApiVisit dbOne pCon).2 = ⟨200, true⟩ :=
  ⟨api_visit_falsy_and_coercion.2.1 dbOne
     { visitId := .vstr "", consented := .vbool true,
       latitude := .vundef, longitude := .vundef, accuracy := .vundef }
     (by decide),
   (api_visit_falsy_and_coercion.2.2.1 dbOne pCon
     { id := 1, linkId := 1, createdAt := "t1", ip := "203.0.113.42",
       userAgent := "ua", referer := "", consented := 0,
       latitude := none, longitude := none, accuracy := none }
     (by decide) (by decide) (by decide)).1⟩

/-- Claim C1, counterexample: on a store holding the single pending
visit 1, a first resolve with a consented payload succeeds and stores
`consented = 1`, `latitude = 15`, yet a second resolve for the same
visit id with a declined payload overwrites them to `consented = 0`,
`latitude = NULL` — the stored values do not survive a later call. -/
theorem resolve_twice_changes_cex :
    (handleApiVisit dbOne pCon).2 = ⟨200, true⟩ ∧
    ((handleApiVisit dbOne pCon).1.visits.map fun v => (v.consented, v.latitude)) =
      [(1, some 15)] ∧
    ((handleApiVisit (handleApiVisit dbOne pCon).1 pDec).1.visits.map
        fun v => (v.consented, v.latitude)) = [(0, none)] := by
  decide

/-- Claim C1, amended: resolution is not once-only; the unconditional
UPDATE makes resolve last-writer-wins, so running two resolves with the
same `visitId` leaves exactly the state of the second one alone. -/
theorem resolve_last_writer_wins (db : DB) (p1 p2 : VisitPayload)
    (hid : p1.visitId = p2.visitId) :
    (handleApiVisit (handleApiVisit db p1).1 p2).1 = (handleApiVisit db p2).1 := by
  by_cases h1 : truthy p1.visitId = false
  · have h2 : truthy p2.visitId = false := hid ▸ h1
    by_cases h1' : truthy p1.visitId = true
    · rw [h1'] at h1; exact absurd h1 (by decide)
    · simp [handleApiVisit, h1, h2]
  · have h1t : truthy p1.visitId = true := by
      revert h1; cases truthy p1.visitId <;> simp
    have h2t : truthy p2.visitId = true := hid ▸ h1t
    simp only [handleApiVisit, h1t, h2t, Bool.true_eq_false, if_false, List.map_map]
    have hfun :
        ((fun v => if idMatches p2.visitId v.id then updateVisitRow p2 v else v) ∘
         (fun v => if idMatches p1.visitId v.id then updateVisitRow p1 v else v)) =
        fun v => if idMatches p2.visitId v.id then updateVisitRow p2 v else v := by
      funext v
      by_cases hm : idMatches p2.visitId v.id = true
      · have hm1 : idMatches p1.visitId v.id = true := by rw [hid]; exact hm
        simp only [Function.comp, hm1, if_true]
        have hidsame : (updateVisitRow p1 v).id = v.id := rfl
        simp [hidsame, hm, updateVisitRow]
      · have hm1 : ¬ idMatches p1.visitId v.id = true := by rw [hid]; exact hm
        simp [Function.comp, hm, hm1]
    rw [hfun]

theorem resolve_last_writer_wins_witness :
    pCon.visitId = pDec.visitId ∧
    (handleApiVisit (handleApiVisit dbOne pCon).1 pDec).1 =
      (handleApiVisit dbOne pDec).1 :=
  ⟨by decide, resolve_last_writer_wins dbOne pCon pDec (by decide)⟩

/-- Claim C2, counterexample: a consented payload whose latitude is the
string `"abc"` is not rejected — the route answers 200 `ok: true` — and
the visit is not left pending: it is marked `consented = 1` with
`latitude` NULL and `longitude = 2` stored. -/
theorem resolve_nonnumeric_cex :
    (handleApiVisit dbOne pBadLat).2 = ⟨200, true⟩ ∧
    ((handleApiVisit dbOne pBadLat).1.visits.map
        fun v => (v.consented, v.latitude, v.longitude)) = [(1, none, some 2)] := by
  decide

/-- Claim C2, amended: a resolve whose `consented` is truthy always
succeeds with 200 `ok: true` — there is no ValidationError path — and
on every matched visit it stores `consented = 1` while silently storing
NULL for each of latitude, longitude, accuracy that is not a number. -/
theorem resolve_nonnumeric_nulls (db : DB) (p : VisitPayload)
    (ht : truthy p.visitId = true) (hc : truthy p.consented = true) :
    (handleApiVisit db p).2 = ⟨200, true⟩ ∧
    ∀ v ∈ db.visits, idMatches p.visitId v.id = true →
      ∃ v' ∈ (handleApiVisit db p).1.visits, v'.id = v.id ∧
        v'.consented = 1 ∧
        (isNumber p.latitude = false → v'.latitude = none) ∧
        (isNumber p.longitude = false → v'.longitude = none) ∧
        (isNumber p.accuracy = false → v'.accuracy = none) := by
  refine ⟨by simp [handleApiVisit, ht], ?_⟩
  intro v hv hm
  refine ⟨updateVisitRow p v, ?_, rfl, by simp [updateVisitRow, hc], ?_, ?_, ?_⟩
  · simp only [handleApiVisit, ht, Bool.true_eq_false, if_false]
    exact List.mem_map.mpr ⟨v, hv, by rw [hm]; rfl⟩
  · exact fun hn => toNumOpt_eq_none_of_not_number p.latitude hn
  · exact fun hn => toNumOpt_eq_none_of_not_number p.longitude hn
  · exact fun hn => toNumOpt_eq_none_of_not_number p.accuracy hn

theorem resolve_nonnumeric_nulls_witness :
    truthy pBadLat.visitId = true ∧ truthy pBadLat.consented = true ∧
    (handleApiVisit dbOne pBadLat).2 = ⟨200, true⟩ :=
  ⟨by decide, by decide,
   (resolve_nonnumeric_nulls dbOne pBadLat (by decide) (by decide)).1⟩

/-- Claim C3, counterexample: resolving visit 1 with a declined payload
that carries numeric latitude 7 and accuracy 3 but a string longitude
leaves the visit with `latitude = 7`, `longitude = NULL`,
`accuracy = 3` and `consented = 0`: the three location columns are
partially set, and they became non-null without a successful consented
resolution. -/
theorem location_partial_cex :
    (handleApiVisit dbOne pPartial).2 = ⟨200, true⟩ ∧
    ((handleApiVisit dbOne pPartial).1.visits.map
        fun v => (v.consented, v.latitude, v.longitude, v.accuracy)) =
      [(0, some 7, none, some 3)] := by
  decide

/-- Claim C3, amended: the three location columns obey no all-or-none
invariant; every resolve sets each of them independently — the payload
field when it is a number, NULL otherwise — regardless of the stored or
submitted consent value. -/
theorem location_fields_independent (db : DB) (p : VisitPayload) (v : Visit)
    (ht : truthy p.visitId = true) (hv : v ∈ db.visits)
    (hm : idMatches p.visitId v.id = true) :
    ∃ v' ∈ (handleApiVisit db p).1.visits, v'.id = v.id ∧
      v'.latitude = toNumOpt p.latitude ∧
      v'.longitude = toNumOpt p.longitude ∧
      v'.accuracy = toNumOpt p.accuracy ∧
      v'.consented = (if truthy p.consented = true then 1 else 0) := by
  refine ⟨updateVisitRow p v, ?_, rfl, rfl, rfl, rfl, by simp [updateVisitRow]⟩
  simp only [handleApiVisit, ht, Bool.true_eq_false, if_false]
  exact List.mem_map.mpr ⟨v, hv, by rw [hm]; rfl⟩

theorem location_fields_independent_witness :
    ∃ v' ∈ (handleApiVisit dbOne pPartial).1.visits, v'.id = 1 ∧
      v'.latitude = toNumOpt pPartial.latitude ∧
      v'.longitude = toNumOpt pPartial.longitude ∧
      v'.accuracy = toNumOpt pPartial.accuracy ∧
      v'.consented = (if truthy pPartial.consented = true then 1 else 0) :=
  location_fields_independent dbOne pPartial
    { id := 1, linkId := 1, createdAt := "t1", ip := "203.0.113.42",
      userAgent := "ua", referer := "", consented := 0,
      latitude := none, longitude := none, accuracy := none }
    (by decide) (by decide) (by decide)

/-- Claim C7, counterexample: `"HTTP://x"` does not begin with
`http://` or `https://`, yet `create` accepts it — the case-insensitive
regular expression passes it and a link row is inserted. -/
theorem create_url_case_cex :
    "http://".data.isPrefixOf "HTTP://x".data = false ∧
    "https://".data.isPrefixOf "HTTP://x".data = false ∧
    (handleCreate dbEmpty "HTTP://x" none "abc1234" "t0").2 =
      .redirect "abc1234" ∧
    ((handleCreate dbEmpty "HTTP://x" none "abc1234" "t0").1.links.map
        Link.targetUrl) = ["HTTP://x"] := by
  decide

/-- Claim C7, amended: `create` fails with 400 and inserts no row for
every `targetUrl` that does not begin case-insensitively with
`http://` or `https://` (in particular `"ftp://x"` and the empty
string), and validation passes for every `targetUrl` that does. -/
theorem create_url_check :
    (∀ (db : DB) (u : String) (title : Option String) (slug t : String),
       matchesUrlRegex u = false →
       handleCreate db u title slug t = (db, .badRequest)) ∧
    (∀ (db : DB) (u : String) (title : Option String) (slug t : String),
       matchesUrlRegex u = true →
       (handleCreate db u title slug t).2 ≠ .badRequest) ∧
    matchesUrlRegex "ftp://x" = false ∧ matchesUrlRegex "" = false := by
  refine ⟨?_, ?_, by decide, by decide⟩
  · intro db u title slug t h
    unfold handleCreate
    rw [if_pos (Or.inr h)]
  · intro db u title slug t h
    have hne : u ≠ "" := by
      intro he
      rw [he] at h
      exact absurd h (by decide)
    unfold handleCreate
    rw [if_neg]
    · by_cases hs : (db.links.any fun l => l.slug == slug) = true
      · simp [hs]
      · simp [hs]
    · rintro (he | hf)
      · exact hne he
      · rw [h] at hf
        exact absurd hf (by decide)

theorem create_url_check_witness :
    matchesUrlRegex "ftp://x" = false ∧
    handleCreate dbEmpty "ftp://x" none "slg0000" "t0" = (dbEmpty, .badRequest) ∧
    matchesUrlRegex "https://example.com" = true ∧
    (handleCreate dbEmpty "https://example.com" none "slg0000" "t0").2 ≠
      .badRequest :=
  ⟨by decide,
   create_url_check.1 dbEmpty "ftp://x" none "slg0000" "t0" (by decide),
   by decide,
   create_url_check.2.1 dbEmpty "https://example.com" none "slg0000" "t0"
     (by decide)⟩

/-- Claim C9: whatever the random source does, every slug produced by
the configured generator has length at least 7 (in fact exactly 7) and
all its characters come from the fixed lowercase-alphanumeric
alphabet. -/
theorem nanoid_slug_spec (pick : Nat → Fin nanoidAlphabet.length) :
    7 ≤ (nanoidChars pick).length ∧
    ∀ c ∈ nanoidChars pick, c ∈ nanoidAlphabet := by
  constructor
  · simp [nanoidChars, customAlphabet]
  · intro c hc
    simp only [nanoidChars, customAlphabet, List.mem_map] at hc
    obtain ⟨i, _, rfl⟩ := hc
    exact List.get_mem _ _ _

theorem nanoid_slug_spec_witness :
    7 ≤ (nanoidChars pickZero).length ∧ '0' ∈ nanoidAlphabet :=
  ⟨(nanoid_slug_spec pickZero).1,
   (nanoid_slug_spec pickZero).2 '0' (by decide)⟩

/-- A nonempty list is not `isEmpty`. -/
theorem isEmpty_eq_false_of_ne {α : Type} {l : List α} (h : l ≠ []) :
    l.isEmpty = false := by
  cases l with
  | nil => exact absurd rfl h
  | cons x xs => rfl

/-- A character that is not a digit does not occur in an all-digit
list. -/
theorem not_mem_of_all_digit {p : List Char} (h : p.all Char.isDigit = true)
    {c : Char} (hc : Char.isDigit c = false) : c ∉ p := by
  intro hm
  have hd := List.all_eq_true.mp h c hm
  rw [hc] at hd
  exact Bool.noConfusion hd

/-- `splitChar` never returns an empty list of parts. -/
theorem splitChar_ne_nil (sep : Char) (l : List Char) :
    splitChar sep l ≠ [] := by
  cases l with
  | nil => simp [splitChar]
  | cons c cs =>
      unfold splitChar
      split
      · simp
      · split <;> simp

/-- Splitting a list that avoids the separator yields that single
part. -/
theorem splitChar_of_not_mem (sep : Char) :
    ∀ l : List Char, sep ∉ l → splitChar sep l = [l] := by
  intro l
  induction l with
  | nil => intro _; rfl
  | cons c cs ih =>
      intro h
      have hc : ¬ c = sep := fun he => h (he ▸ List.mem_cons_self c cs)
      have hcs : sep ∉ cs := fun hm => h (List.mem_cons_of_mem c hm)
      simp only [splitChar, hc, if_false]
      rw [ih hcs]

/-- Splitting at an explicit separator occurrence peels off the part
before it. -/
theorem splitChar_append_sep (sep : Char) :
    ∀ a rest : List Char, sep ∉ a →
      splitChar sep (a ++ sep :: rest) = a :: splitChar sep rest := by
  intro a
  induction a with
  | nil =>
      intro rest _
      simp [splitChar]
  | cons c cs ih =>
      intro rest h
      have hc : ¬ c = sep := fun he => h (he ▸ List.mem_cons_self c cs)
      have hcs : sep ∉ cs := fun hm => h (List.mem_cons_of_mem c hm)
      simp only [List.cons_append, splitChar, hc, if_false, List.append_eq]
      rw [ih rest hcs]

/-- Every character other than the separator survives into some part
of the split. -/
theorem exists_mem_splitChar (sep c : Char) (hc : c ≠ sep) :
    ∀ l : List Char, c ∈ l → ∃ p ∈ splitChar sep l, c ∈ p := by
  intro l
  induction l with
  | nil => intro h; exact absurd h (List.not_mem_nil c)
  | cons x xs ih =>
      intro h
      by_cases hx : x = sep
      · subst hx
        have hm : c ∈ xs := by
          rcases List.mem_cons.mp h with he | hm
          · exact absurd he hc
          · exact hm
        obtain ⟨p, hp, hcp⟩ := ih hm
        refine ⟨p, ?_, hcp⟩
        simp only [splitChar, if_pos rfl]
        exact List.mem_cons_of_mem [] hp
      · rcases hs : splitChar sep xs with _ | ⟨p, ps⟩
        · exact absurd hs (splitChar_ne_nil sep xs)
        · have hrw : splitChar sep (x :: xs) = (x :: p) :: ps := by
            simp only [splitChar, hx, if_false, hs]
          rcases List.mem_cons.mp h with he | hm
          · subst he
            exact ⟨c :: p, by rw [hrw]; exact List.mem_cons_self _ _,
                   List.mem_cons_self _ _⟩
          · obtain ⟨q, hq, hcq⟩ := ih hm
            rw [hs] at hq
            rcases List.mem_cons.mp hq with hqe | hqs
            · subst hqe
              exact ⟨x :: q, by rw [hrw]; exact List.mem_cons_self _ _,
                     List.mem_cons_of_mem x hcq⟩
            · exact ⟨q, by rw [hrw]; exact List.mem_cons_of_mem _ hqs, hcq⟩

/-- A split at dots is never a dotted quad when the string contains a
colon (the colon is not a digit, so its part fails the digit test). -/
theorem isDottedQuad_false_of_colon (ip : List Char) (h : ':' ∈ ip) :
    isDottedQuad (splitChar '.' ip) = false := by
  obtain ⟨p, hp, hcp⟩ := exists_mem_splitChar '.' ':' (by decide) ip h
  have hfail : (!p.isEmpty && p.all Char.isDigit) = false := by
    have hall : p.all Char.isDigit = false := by
      cases hall : p.all Char.isDigit
      · rfl
      · have hd := List.all_eq_true.mp hall ':' hcp
        exact absurd hd (by decide)
    simp [hall]
  unfold isDottedQuad
  cases hlen : (splitChar '.' ip).length == 4
  · rfl
  · simp only [Bool.true_and]
    cases hall2 : (splitChar '.' ip).all fun p => !p.isEmpty && p.all Char.isDigit
    · rfl
    · have hd := List.all_eq_true.mp hall2 p hp
      rw [hfail] at hd
      exact Bool.noConfusion hd

/-- Claim C8: the display masking is a pure transform on the stored IP
string: any dotted-quad IPv4 address (four nonempty all-digit octets)
keeps its first three octets, has the last replaced by `0`, and gets
`" (masked)"` appended; any colon-separated IPv6 address keeps only
its first four segments followed by the masked suffix
`":**** (masked)"`; in particular `"203.0.113.42"` displays as
`"203.0.113.0 (masked)"` and `"2001:db8:1:2:3:4:5:6"` as
`"2001:db8:1:2:**** (masked)"`. -/
theorem maskIP_spec :
    (∀ a b c d : List Char,
       a ≠ [] → b ≠ [] → c ≠ [] → d ≠ [] →
       a.all Char.isDigit = true → b.all Char.isDigit = true →
       c.all Char.isDigit = true → d.all Char.isDigit = true →
       maskIPChars (a ++ '.' :: (b ++ '.' :: (c ++ '.' :: d))) =
         a ++ '.' :: (b ++ '.' :: (c ++ '.' :: '0' :: " (masked)".data))) ∧
    (∀ s1 s2 s3 s4 s5 s6 s7 s8 : List Char,
       ':' ∉ s1 → ':' ∉ s2 → ':' ∉ s3 → ':' ∉ s4 →
       maskIPChars (s1 ++ ':' :: (s2 ++ ':' :: (s3 ++ ':' :: (s4 ++ ':' ::
           (s5 ++ ':' :: (s6 ++ ':' :: (s7 ++ ':' :: s8))))))) =
         s1 ++ ':' :: (s2 ++ ':' :: (s3 ++ ':' ::
           (s4 ++ ":**** (masked)".data)))) ∧
    maskIP "203.0.113.42" = "203.0.113.0 (masked)" ∧
    maskIP "2001:db8:1:2:3:4:5:6" = "2001:db8:1:2:**** (masked)" := by
  refine ⟨?_, ?_, by decide, by decide⟩
  · intro a b c d ha hb hc hd hda hdb hdc hdd
    have hna : '.' ∉ a := not_mem_of_all_digit hda (by decide)
    have hnb : '.' ∉ b := not_mem_of_all_digit hdb (by decide)
    have hnc : '.' ∉ c := not_mem_of_all_digit hdc (by decide)
    have hnd : '.' ∉ d := not_mem_of_all_digit hdd (by decide)
    have hsplit : splitChar '.' (a ++ '.' :: (b ++ '.' :: (c ++ '.' :: d))) =
        [a, b, c, d] := by
      rw [splitChar_append_sep '.' a _ hna, splitChar_append_sep '.' b _ hnb,
          splitChar_append_sep '.' c _ hnc, splitChar_of_not_mem '.' d hnd]
    have hip : a ++ '.' :: (b ++ '.' :: (c ++ '.' :: d)) ≠ [] := by
      intro he
      exact absurd (List.append_eq_nil.mp he).2 (by simp)
    have hq : isDottedQuad [a, b, c, d] = true := by
      simp [isDottedQuad, isEmpty_eq_false_of_ne ha, isEmpty_eq_false_of_ne hb,
            isEmpty_eq_false_of_ne hc, isEmpty_eq_false_of_ne hd,
            hda, hdb, hdc, hdd]
    unfold maskIPChars
    rw [if_neg hip, hsplit, if_pos hq]
    simp [joinChar, List.append_assoc]
  · intro s1 s2 s3 s4 s5 s6 s7 s8 h1 h2 h3 h4
    have hcol : ':' ∈ s1 ++ ':' :: (s2 ++ ':' :: (s3 ++ ':' :: (s4 ++ ':' ::
        (s5 ++ ':' :: (s6 ++ ':' :: (s7 ++ ':' :: s8)))))) :=
      List.mem_append.mpr (Or.inr (List.mem_cons_self _ _))
    have hip : s1 ++ ':' :: (s2 ++ ':' :: (s3 ++ ':' :: (s4 ++ ':' ::
        (s5 ++ ':' :: (s6 ++ ':' :: (s7 ++ ':' :: s8)))))) ≠ [] := by
      intro he
      exact absurd (List.append_eq_nil.mp he).2 (by simp)
    have hdq := isDottedQuad_false_of_colon _ hcol
    have hsplit : splitChar ':' (s1 ++ ':' :: (s2 ++ ':' :: (s3 ++ ':' ::
        (s4 ++ ':' :: (s5 ++ ':' :: (s6 ++ ':' :: (s7 ++ ':' :: s8))))))) =
        s1 :: s2 :: s3 :: s4 ::
          splitChar ':' (s5 ++ ':' :: (s6 ++ ':' :: (s7 ++ ':' :: s8))) := by
      rw [splitChar_append_sep ':' s1 _ h1, splitChar_append_sep ':' s2 _ h2,
          splitChar_append_sep ':' s3 _ h3, splitChar_append_sep ':' s4 _ h4]
    unfold maskIPChars
    rw [if_neg hip, if_neg (by rw [hdq]; exact Bool.false_ne_true),
        if_pos (List.elem_eq_true_of_mem hcol), hsplit]
    simp [joinChar, List.append_assoc]

theorem maskIP_spec_witness :
    maskIPChars (['2', '0', '3'] ++ '.' :: (['0'] ++ '.' ::
        (['1', '1', '3'] ++ '.' :: ['4', '2']))) =
      ['2', '0', '3'] ++ '.' :: (['0'] ++ '.' ::
        (['1', '1', '3'] ++ '.' :: '0' :: " (masked)".data)) ∧
    maskIPChars (['2', '0', '0', '1'] ++ ':' :: (['d', 'b', '8'] ++ ':' ::
        (['1'] ++ ':' :: (['2'] ++ ':' :: (['3'] ++ ':' :: (['4'] ++ ':' ::
          (['5'] ++ ':' :: ['6']))))))) =
      ['2', '0', '0', '1'] ++ ':' :: (['d', 'b', '8'] ++ ':' ::
        (['1'] ++ ':' :: (['2'] ++ ":**** (masked)".data))) :=
  ⟨maskIP_spec.1 ['2', '0', '3'] ['0'] ['1', '1', '3'] ['4', '2']
     (by decide) (by decide) (by decide) (by decide)
     (by decide) (by decide) (by decide) (by decide),
   maskIP_spec.2.1 ['2', '0', '0', '1'] ['d', 'b', '8'] ['1'] ['2']
     ['3'] ['4'] ['5'] ['6']
     (by decide) (by decide) (by decide) (by decide)⟩

end ConsentedLinkTracker
